import Mathlib

/-!
# Verification of the ESignBase Node SDK client

Shallow embedding of `src/index.js`: an authenticated HTTP client for a
document-signing service.  The transport (global `fetch`) is modelled as a
queue of `HttpResponse`s consumed in order, together with a log of the
`HttpRequest`s actually dispatched — exactly the shape of the vitest mocks in
`src/test/client.test.js`.  Stateful code becomes explicit state passing over
`ClientState` (the private fields of `ESignBaseClient`) and `World` (the
transport).  Fallible code returns `Except`.
-/

namespace ESignBase

/- ============================================================
 * Enums (src/index.js lines 7-18)
 * ============================================================ -/

def GrantType.CLIENT_CREDENTIALS : String := "client_credentials"

def GrantType.AUTHORIZATION_CODE : String := "authorization_code"

/-- `Object.values(GrantType)` -/
def GrantType.values : List String :=
  [GrantType.CLIENT_CREDENTIALS, GrantType.AUTHORIZATION_CODE]

/-- `Object.values(Scope)` -/
def Scope.values : List String :=
  ["all", "read", "create_document", "delete", "sandbox"]

/- ============================================================
 * Error type (src/index.js lines 24-30)
 * ============================================================ -/

/-- `ESignBaseSDKError`: message plus optional numeric status code
(`statusCode = null` when constructed with one argument). -/
structure ESignBaseSDKError where
  message : String
  statusCode : Option Nat := Option.none
deriving DecidableEq, Repr

/-- A run of the embedded program either fails with a thrown
`ESignBaseSDKError` or with a transport-level failure (rejected fetch:
network error, abort, or an exhausted mock queue).  Transport failures
propagate unwrapped, mirroring the JS behaviour. -/
inductive RunError where
  | sdk : ESignBaseSDKError → RunError
  | transport : RunError
deriving DecidableEq, Repr

/- ============================================================
 * JS-value helpers
 * ============================================================ -/

/-- JS truthiness of a string-or-absent value: `undefined`, `null` and the
empty string are falsy; every other string is truthy. -/
def truthyStr : Option String → Bool
  | Option.none => false
  | Option.some s => s != ""

/-- JS `String.prototype.endsWith` restricted to what the source uses. -/
def jsEndsWith (s suffix : String) : Bool :=
  suffix.data.isSuffixOf s.data

/-- `baseURL.endsWith('/') ? baseURL : baseURL + '/'` (lines 102-104). -/
def normalizeBaseURL (u : String) : String :=
  if jsEndsWith u "/" then u else u ++ "/"

/-- `path.replace(/^\//, '')` — strips at most one leading slash. -/
def stripLeadingSlash (p : String) : String :=
  if p.startsWith "/" then p.drop 1 else p

def hexDigitChar (n : Nat) : Char :=
  "0123456789ABCDEF".data.getD n '0'

def percentEncodeByte (b : UInt8) : String :=
  "%" ++ String.singleton (hexDigitChar (b.toNat / 16))
      ++ String.singleton (hexDigitChar (b.toNat % 16))

/-- Characters `encodeURIComponent` leaves unescaped. -/
def isURIUnescaped (c : Char) : Bool :=
  let n := c.toNat
  (decide (65 ≤ n) && decide (n ≤ 90)) ||
  (decide (97 ≤ n) && decide (n ≤ 122)) ||
  (decide (48 ≤ n) && decide (n ≤ 57)) ||
  ['-', '_', '.', '!', '~', '*', '\'', '(', ')'].contains c

/-- JS `encodeURIComponent`: unescaped characters pass through, everything
else is percent-encoded per UTF-8 byte. -/
def encodeURIComponent (s : String) : String :=
  String.join (s.data.map (fun c =>
    if isURIUnescaped c then String.singleton c
    else String.join (((String.singleton c).toUTF8.toList).map percentEncodeByte)))

def base64Lookup (n : Nat) : Char :=
  "ABCDEFGHIJKLMNOPQRSTUVWXYZabcdefghijklmnopqrstuvwxyz0123456789+/".data.getD n 'A'

def base64Chunks : List UInt8 → String
  | [] => ""
  | [a] =>
      let x := a.toNat
      String.mk [base64Lookup (x / 4), base64Lookup ((x % 4) * 16)] ++ "=="
  | [a, b] =>
      let x := a.toNat; let y := b.toNat
      String.mk [base64Lookup (x / 4), base64Lookup ((x % 4) * 16 + y / 16),
                 base64Lookup ((y % 16) * 4)] ++ "="
  | a :: b :: c :: rest =>
      let x := a.toNat; let y := b.toNat; let z := c.toNat
      String.mk [base64Lookup (x / 4), base64Lookup ((x % 4) * 16 + y / 16),
                 base64Lookup ((y % 16) * 4 + z / 64), base64Lookup (z % 64)]
        ++ base64Chunks rest

/-- `Buffer.from(s).toString('base64')`. -/
def base64Encode (s : String) : String := base64Chunks s.toUTF8.toList

/- ============================================================
 * JSON values (for request/response bodies)
 * ============================================================ -/

inductive Json where
  | str : String → Json
  | num : Int → Json
  | bool : Bool → Json
  | null : Json
  | arr : List Json → Json
  | obj : List (String × Json) → Json

/-- Property lookup `j[k]` on a JSON value; `none` models `undefined`. -/
def jsonLookup (j : Json) (k : String) : Option Json :=
  match j with
  | Json.obj l => (l.find? (fun p => p.fst == k)).map (fun p => p.snd)
  | _ => Option.none

/-- The keys of a JSON object (empty for non-objects). -/
def jsonKeys : Json → List String
  | Json.obj l => l.map (fun p => p.fst)
  | _ => []

/-- JS truthiness of a JSON value (`if (userDefinedMetadata)`). -/
def jsTruthyJson : Json → Bool
  | Json.str s => s != ""
  | Json.num n => n != 0
  | Json.bool b => b
  | Json.null => false
  | Json.arr _ => true
  | Json.obj _ => true

/-- `data.access_token` where `data = await response.json()`; the server
contract says the token is a string, so a missing field or a non-string value
is modelled as absent (JS would store `undefined`). -/
def extractToken (j : Json) : Option String :=
  match jsonLookup j "access_token" with
  | Option.some (Json.str s) => Option.some s
  | _ => Option.none

/- ============================================================
 * Transport model
 * ============================================================ -/

/-- A request body as handed to `fetch`: absent, a `JSON.stringify`-ed
object, or a `URLSearchParams` form. -/
inductive Body where
  | empty : Body
  | jsonStr : Json → Body
  | form : List (String × String) → Body

/-- What one `fetch(url, init)` call carries to the transport. -/
structure HttpRequest where
  url : String
  method : String
  headers : List (String × String)
  body : Body
  timeoutMs : Nat

/-- A transport response, as the mocks build them: `ok`, `status`, the result
of `.text()` (`none` models a read failure), the result of `.json()`, and an
opaque id for the raw body stream. -/
structure HttpResponse where
  ok : Bool
  status : Nat
  textBody : Option String
  jsonBody : Json
  body : Nat

/-- The transport: queued responses (consumed in order, as the vitest
`mockResolvedValueOnce` chains do) and the log of dispatched requests. -/
structure World where
  responses : List HttpResponse
  calls : List HttpRequest

/-- One `fetch` call: logs the request and consumes the next queued response;
an exhausted queue models a transport failure. -/
def fetchW (req : HttpRequest) (w : World) : Option HttpResponse × World :=
  match w.responses with
  | [] => (Option.none, { w with calls := w.calls ++ [req] })
  | r :: rest => (Option.some r, { responses := rest, calls := w.calls ++ [req] })

/- ============================================================
 * Headers: JS object-spread semantics
 * ============================================================ -/

/-- First-match association lookup on a headers object. -/
def lookupHeader (hs : List (String × String)) (k : String) : Option String :=
  (hs.find? (fun p => p.fst == k)).map (fun p => p.snd)

/-- `{ ...base, ...extra }`: keys of `extra` override keys of `base`. -/
def spreadMerge (base extra : List (String × String)) : List (String × String) :=
  base.filter (fun p => (lookupHeader extra p.fst).isNone) ++ extra

/-- `` `Bearer ${this.#accessToken}` `` — template-literal interpolation.  At a
dispatch point the token is either a string (possibly empty, after a retry
whose reauthentication returned `access_token: ""`) or `undefined` (after a
retry whose reauthentication response lacked the field); the connected guard
keeps the initial `null` from ever reaching a dispatch. -/
def bearerString : Option String → String
  | Option.none => "Bearer undefined"
  | Option.some t => "Bearer " ++ t

/- ============================================================
 * Client state and constructor (lines 36-105)
 * ============================================================ -/

/-- The private fields stored by the constructor. -/
structure ClientState where
  baseURL : String
  clientId : String
  clientSecret : String
  grantType : String
  scope : List String
  username : Option String
  password : Option String
  accessToken : Option String := Option.none

/-- The constructor's destructured options object; `none` models an absent
property, and `baseURL` carries its JS default. -/
structure CtorOptions where
  clientId : Option String := Option.none
  clientSecret : Option String := Option.none
  grantType : Option String := Option.none
  scope : Option (List String) := Option.none
  username : Option String := Option.none
  password : Option String := Option.none
  baseURL : String := "https://app.esignbase.com/"

/-- The constructor (lines 60-105): the validation chain in source order,
then the field assignments including baseURL normalization. -/
def construct (o : CtorOptions) : Except ESignBaseSDKError ClientState :=
  if !(truthyStr o.clientId) then
    Except.error { message := "Client ID is required" }
  else if !(truthyStr o.clientSecret) then
    Except.error { message := "Client secret is required" }
  else if !(truthyStr o.grantType) then
    Except.error { message := "Grant type is required" }
  else if (o.scope.getD []).isEmpty then
    Except.error { message := "At least one scope must be provided" }
  else if !(GrantType.values.contains (o.grantType.getD "")) then
    Except.error { message := "Invalid grant type" }
  else if !((o.scope.getD []).all (fun s => Scope.values.contains s)) then
    Except.error { message := "Invalid scope value provided" }
  else if o.grantType.getD "" == GrantType.AUTHORIZATION_CODE
      && (!(truthyStr o.username) || !(truthyStr o.password)) then
    Except.error
      { message := "Username and password are required for authorization_code grant type" }
  else
    Except.ok
      { baseURL := normalizeBaseURL o.baseURL
        clientId := o.clientId.getD ""
        clientSecret := o.clientSecret.getD ""
        grantType := o.grantType.getD ""
        scope := o.scope.getD []
        username := o.username
        password := o.password }

/-- `get isConnected() { return !!this.#accessToken; }` -/
def isConnected (st : ClientState) : Bool := truthyStr st.accessToken

/-- `'Client is not connected. Call connect() first.'` with no status code. -/
def notConnectedError : ESignBaseSDKError :=
  { message := "Client is not connected. Call connect() first." }

/- ============================================================
 * #handleResponse (lines 115-127)
 * ============================================================ -/

def handleResponse (r : HttpResponse) : Except RunError HttpResponse :=
  if r.ok then Except.ok r
  else Except.error (RunError.sdk
    { message := r.textBody.getD "Unknown error", statusCode := Option.some r.status })

/- ============================================================
 * connect (lines 175-214)
 * ============================================================ -/

/-- The form body built from `URLSearchParams` in `connect`. -/
def connectFormPairs (st : ClientState) : List (String × String) :=
  [("grant_type", st.grantType), ("scope", String.intercalate " " st.scope)]
    ++ (if st.grantType == GrantType.AUTHORIZATION_CODE then
          [("username", st.username.getD "undefined"),
           ("password", st.password.getD "undefined")]
        else [])

/-- The token-exchange request `POST {baseURL}oauth2/token` with Basic auth. -/
def tokenRequest (st : ClientState) : HttpRequest :=
  { url := st.baseURL ++ "oauth2/token"
    method := "POST"
    headers :=
      [("Authorization", "Basic " ++ base64Encode (st.clientId ++ ":" ++ st.clientSecret)),
       ("Content-Type", "application/x-www-form-urlencoded")]
    body := Body.form (connectFormPairs st)
    timeoutMs := 15000 }

/-- `connect()`: one token-exchange fetch; on a non-ok response
`#handleResponse` throws and the access token is left untouched; on an ok
response the token becomes whatever `data.access_token` is. -/
def connect (st : ClientState) (w : World) :
    Except RunError Unit × ClientState × World :=
  match fetchW (tokenRequest st) w with
  | (Option.none, w₁) => (Except.error RunError.transport, st, w₁)
  | (Option.some r, w₁) =>
    if r.ok then
      (Except.ok (), { st with accessToken := extractToken r.jsonBody }, w₁)
    else
      (Except.error (RunError.sdk
        { message := r.textBody.getD "Unknown error", statusCode := Option.some r.status }),
       st, w₁)

/- ============================================================
 * #request (lines 129-169)
 * ============================================================ -/

/-- Per-call options: caller headers, body, and `options.timeout` where `0`
models the absent/falsy case of `options.timeout || 15000`. -/
structure ReqOptions where
  headers : List (String × String) := []
  body : Body := Body.empty
  timeout : Nat := 0

/-- The request `executeFetch` dispatches: the Authorization header first,
then the caller's headers spread over it (lines 144-152). -/
def buildRequest (st : ClientState) (url method : String) (opts : ReqOptions) : HttpRequest :=
  { url := url
    method := method
    headers := spreadMerge [("Authorization", bearerString st.accessToken)] opts.headers
    body := opts.body
    timeoutMs := if opts.timeout == 0 then 15000 else opts.timeout }

/-- `#request(method, path, options, retry)`: connected guard, URL
concatenation, dispatch, the single 401 reauthenticate-and-redispatch cycle,
and `#handleResponse` on the final response.  Note the second `executeFetch`
re-reads the (possibly updated) access token. -/
def request (st : ClientState) (w : World) (method path : String)
    (opts : ReqOptions) (retry : Bool) :
    Except RunError HttpResponse × ClientState × World :=
  if !(isConnected st) then
    (Except.error (RunError.sdk notConnectedError), st, w)
  else
    let url := st.baseURL ++ stripLeadingSlash path
    match fetchW (buildRequest st url method opts) w with
    | (Option.none, w₁) => (Except.error RunError.transport, st, w₁)
    | (Option.some r, w₁) =>
      if r.status == 401 && retry then
        match connect st w₁ with
        | (Except.error e, st', w₂) => (Except.error e, st', w₂)
        | (Except.ok _, st', w₂) =>
          match fetchW (buildRequest st' url method opts) w₂ with
          | (Option.none, w₃) => (Except.error RunError.transport, st', w₃)
          | (Option.some r₂, w₃) => (handleResponse r₂, st', w₃)
      else
        (handleResponse r, st, w₁)

/- ============================================================
 * Public resource operations (lines 216-302)
 * ============================================================ -/

def mapOutcome {α : Type} (f : HttpResponse → α) :
    Except RunError HttpResponse × ClientState × World →
    Except RunError α × ClientState × World
  | (res, st, w) => (res.map f, st, w)

def getTemplates (st : ClientState) (w : World) :
    Except RunError Json × ClientState × World :=
  mapOutcome (fun r => r.jsonBody) (request st w "GET" "api/templates" {} true)

def getTemplate (st : ClientState) (w : World) (templateId : String) :
    Except RunError Json × ClientState × World :=
  mapOutcome (fun r => r.jsonBody)
    (request st w "GET" ("api/template/" ++ encodeURIComponent templateId) {} true)

def getDocuments (st : ClientState) (w : World)
    (limit : Int := 20) (offset : Int := 0) :
    Except RunError Json × ClientState × World :=
  mapOutcome (fun r => r.jsonBody)
    (request st w "GET"
      ("api/documents?limit=" ++ encodeURIComponent (toString limit)
        ++ "&offset=" ++ encodeURIComponent (toString offset)) {} true)

def getDocument (st : ClientState) (w : World) (documentId : String) :
    Except RunError Json × ClientState × World :=
  mapOutcome (fun r => r.jsonBody)
    (request st w "GET" ("api/document/" ++ encodeURIComponent documentId) {} true)

/-- A recipient object as `createDocument` re-maps it. -/
structure Recipient where
  email : String
  first_name : String
  last_name : String
  role_name : String
  locale : String

/-- A JS `Date` value, abstracted by its `toISOString()` serialization (the
only operation the source applies to it). -/
structure JsDate where
  iso : String

/-- `createDocument`'s destructured argument.  `expirationDate` is `some d`
exactly when the caller passed a `Date` instance (`instanceof Date`); any
other supplied value behaves like absence.  `userDefinedMetadata` is the
supplied JSON value, if any. -/
structure CreateDocumentInput where
  templateId : String
  documentName : String
  recipients : List Recipient
  userDefinedMetadata : Option Json := Option.none
  expirationDate : Option JsDate := Option.none

def recipientJson (r : Recipient) : Json :=
  Json.obj [("email", Json.str r.email), ("first_name", Json.str r.first_name),
            ("last_name", Json.str r.last_name), ("role_name", Json.str r.role_name),
            ("locale", Json.str r.locale)]

/-- `requestData` as built by lines 252-270: base fields, then
`user_defined_metadata` if truthy, then `expiration_date` iff the argument is
a `Date`, serialized with `toISOString()`. -/
def createDocBody (i : CreateDocumentInput) : Json :=
  Json.obj
    ([("name", Json.str i.documentName),
      ("template_id", Json.str i.templateId),
      ("recipients", Json.arr (i.recipients.map recipientJson))]
      ++ (match i.userDefinedMetadata with
          | Option.some m => if jsTruthyJson m then [("user_defined_metadata", m)] else []
          | Option.none => [])
      ++ (match i.expirationDate with
          | Option.some d => [("expiration_date", Json.str d.iso)]
          | Option.none => []))

def createDocument (st : ClientState) (w : World) (i : CreateDocumentInput) :
    Except RunError Json × ClientState × World :=
  mapOutcome (fun r => r.jsonBody)
    (request st w "POST" "api/document"
      { headers := [("Content-Type", "application/json")]
        body := Body.jsonStr (createDocBody i) } true)

/-- The value `Readable.fromWeb(response.body)` returns: a Node stream
wrapping the raw web body. -/
structure NodeReadable where
  webBody : Nat
deriving DecidableEq, Repr

def Readable.fromWeb (b : Nat) : NodeReadable := { webBody := b }

def downloadDocument (st : ClientState) (w : World) (documentId : String) :
    Except RunError NodeReadable × ClientState × World :=
  mapOutcome (fun r => Readable.fromWeb r.body)
    (request st w "GET"
      ("api/document/" ++ encodeURIComponent documentId ++ "/download") {} false)

def deleteDocument (st : ClientState) (w : World) (documentId : String) :
    Except RunError Bool × ClientState × World :=
  mapOutcome (fun _ => true)
    (request st w "DELETE" ("api/document/" ++ encodeURIComponent documentId) {} true)

def getCredits (st : ClientState) (w : World) :
    Except RunError Json × ClientState × World :=
  mapOutcome (fun r => r.jsonBody) (request st w "GET" "api/credits" {} true)

/- ============================================================
 * Substring check (for "message contains ...")
 * ============================================================ -/

/-- Whether `sub` occurs as a contiguous run inside `l`. -/
def listInfix (sub : List Char) : List Char → Bool
  | [] => sub.isEmpty
  | c :: rest => sub.isPrefixOf (c :: rest) || listInfix sub rest

/-- Whether the string `sub` occurs inside `s`. -/
def strContainsSub (s sub : String) : Bool := listInfix sub.data s.data

/- ============================================================
 * Concrete fixtures (mirroring the vitest scenarios)
 * ============================================================ -/

/-- The connected client the test suite builds: default base URL, client
credentials grant, scope `[read]`, token `"tok"` already stored. -/
def testClient : ClientState :=
  { baseURL := "https://app.esignbase.com/"
    clientId := "id"
    clientSecret := "secret"
    grantType := GrantType.CLIENT_CREDENTIALS
    scope := ["read"]
    username := Option.none
    password := Option.none
    accessToken := Option.some "tok" }

/-- The same client before any token exchange. -/
def disconnectedClient : ClientState :=
  { testClient with accessToken := Option.none }

/-- `{ access_token: t }`. -/
def tokenJson (t : String) : Json := Json.obj [("access_token", Json.str t)]

/-- A successful JSON response, as the mocks build one. -/
def okJsonResponse (j : Json) : HttpResponse :=
  { ok := true, status := 200, textBody := Option.some "", jsonBody := j, body := 0 }

/-- `{ status: 401, ok: false, text: async () => 'Unauthorized' }`. -/
def resp401 : HttpResponse :=
  { ok := false, status := 401, textBody := Option.some "Unauthorized",
    jsonBody := Json.null, body := 0 }

/-- A successful binary response whose raw body stream has id 7. -/
def streamResponse : HttpResponse :=
  { ok := true, status := 200, textBody := Option.some "", jsonBody := Json.null, body := 7 }

/-- A transport with queued responses and an empty call log. -/
def freshWorld (rs : List HttpResponse) : World := { responses := rs, calls := [] }

/-- Constructor options that violate two rules at once: the grant type is
present but not in the enum, and the scope list is empty. -/
def doublyInvalidOpts : CtorOptions where
  clientId := Option.some "i"
  clientSecret := Option.some "s"
  grantType := Option.some "bogus"
  scope := Option.some []

/-- Valid constructor options whose base URL already ends in two slashes. -/
def doubleSlashOpts : CtorOptions where
  clientId := Option.some "i"
  clientSecret := Option.some "s"
  grantType := Option.some GrantType.CLIENT_CREDENTIALS
  scope := Option.some ["read"]
  baseURL := "https://a.example//"

/-- Per-call options whose headers map tries to override `Authorization`. -/
def overrideAuthOpts : ReqOptions where
  headers := [("Authorization", "Evil")]

/- ============================================================
 * Theorems
 * ============================================================ -/

/-- C2, counterexample: on an input whose grant type is present but not in
the enum and whose scope is empty, the constructor raises the scope error,
not the grant-type error the claim predicts — the scope non-emptiness check
(line 72) runs before the grant-type membership check (line 77). -/
theorem C2_counterexample :
    construct doublyInvalidOpts
      = Except.error { message := "At least one scope must be provided" } ∧
    ¬ construct doublyInvalidOpts
        = Except.error { message := "Invalid grant type" } := by
  refine ⟨rfl, fun h => ?_⟩
  rw [show construct doublyInvalidOpts
      = Except.error { message := "At least one scope must be provided" } from rfl] at h
  simp at h

/-- C2 (amended): construction fails with the message of the first violated
rule in the order actually checked by the code: clientId present, then
clientSecret present, then grantType present, then scope non-empty, then
grantType a member of the grant-type enum, then every scope element a member
of the Scope enum, then username and password present when grantType is
AUTHORIZATION_CODE.  (The spec's order — grant-type membership before the
scope checks — does not match the code.) -/
theorem C2_validation_first_error_order (o : CtorOptions) :
    (truthyStr o.clientId = false →
      construct o = Except.error { message := "Client ID is required" }) ∧
    (truthyStr o.clientId = true → truthyStr o.clientSecret = false →
      construct o = Except.error { message := "Client secret is required" }) ∧
    (truthyStr o.clientId = true → truthyStr o.clientSecret = true →
      truthyStr o.grantType = false →
      construct o = Except.error { message := "Grant type is required" }) ∧
    (truthyStr o.clientId = true → truthyStr o.clientSecret = true →
      truthyStr o.grantType = true → (o.scope.getD []).isEmpty = true →
      construct o = Except.error { message := "At least one scope must be provided" }) ∧
    (truthyStr o.clientId = true → truthyStr o.clientSecret = true →
      truthyStr o.grantType = true → (o.scope.getD []).isEmpty = false →
      GrantType.values.contains (o.grantType.getD "") = false →
      construct o = Except.error { message := "Invalid grant type" }) ∧
    (truthyStr o.clientId = true → truthyStr o.clientSecret = true →
      truthyStr o.grantType = true → (o.scope.getD []).isEmpty = false →
      GrantType.values.contains (o.grantType.getD "") = true →
      (o.scope.getD []).all (fun s => Scope.values.contains s) = false →
      construct o = Except.error { message := "Invalid scope value provided" }) ∧
    (truthyStr o.clientId = true → truthyStr o.clientSecret = true →
      truthyStr o.grantType = true → (o.scope.getD []).isEmpty = false →
      GrantType.values.contains (o.grantType.getD "") = true →
      (o.scope.getD []).all (fun s => Scope.values.contains s) = true →
      (o.grantType.getD "" == GrantType.AUTHORIZATION_CODE
        && (!(truthyStr o.username) || !(truthyStr o.password))) = true →
      construct o = Except.error
        { message :=
            "Username and password are required for authorization_code grant type" }) := by
  refine ⟨?_, ?_, ?_, ?_, ?_, ?_, ?_⟩ <;> intros <;> simp_all [construct]

/-- C2, witness: the amended order at the doubly-invalid input — the scope
rule fires before the grant-type membership rule. -/
theorem C2_witness :
    construct doublyInvalidOpts
      = Except.error { message := "At least one scope must be provided" } :=
  (C2_validation_first_error_order doublyInvalidOpts).2.2.2.1 rfl rfl rfl rfl

/-- C5, counterexample: a base URL already ending in two slashes is stored
verbatim, so the stored base URL does not end with exactly one separator. -/
theorem C5_counterexample :
    (construct doubleSlashOpts).map ClientState.baseURL
      = Except.ok "https://a.example//" ∧
    jsEndsWith "https://a.example//" "//" = true := ⟨rfl, rfl⟩

/-- C5 (amended): the stored base URL always ends with at least one slash; a
base URL without a trailing slash gets exactly one appended; but a base URL
that already ends with a slash is kept verbatim, so trailing runs of two or
more slashes are preserved, not collapsed. -/
theorem C5_baseURL_single_append (u : String) :
    jsEndsWith (normalizeBaseURL u) "/" = true ∧
    (jsEndsWith u "/" = false → normalizeBaseURL u = u ++ "/") ∧
    (jsEndsWith u "/" = true → normalizeBaseURL u = u) := by
  refine ⟨?_, fun h => by simp [normalizeBaseURL, h], fun h => by simp [normalizeBaseURL, h]⟩
  by_cases h : jsEndsWith u "/"
  · simp [normalizeBaseURL, h]
  · simp only [normalizeBaseURL, h, Bool.false_eq_true, if_false]
    simp [jsEndsWith, String.data_append]

/-- C5, witness: normalization at a base URL lacking the trailing slash. -/
theorem C5_witness : normalizeBaseURL "https://x" = "https://x" ++ "/" :=
  (C5_baseURL_single_append "https://x").2.1 rfl

/-- Every authenticated operation, on client state `st`, fails with the
not-connected error and leaves the transport untouched. -/
def allOpsNotConnected (st : ClientState) : Prop :=
  ∀ w : World,
    getTemplates st w = (Except.error (RunError.sdk notConnectedError), st, w) ∧
    (∀ templateId, getTemplate st w templateId
      = (Except.error (RunError.sdk notConnectedError), st, w)) ∧
    (∀ limit offset, getDocuments st w limit offset
      = (Except.error (RunError.sdk notConnectedError), st, w)) ∧
    (∀ documentId, getDocument st w documentId
      = (Except.error (RunError.sdk notConnectedError), st, w)) ∧
    (∀ i, createDocument st w i
      = (Except.error (RunError.sdk notConnectedError), st, w)) ∧
    (∀ documentId, downloadDocument st w documentId
      = (Except.error (RunError.sdk notConnectedError), st, w)) ∧
    (∀ documentId, deleteDocument st w documentId
      = (Except.error (RunError.sdk notConnectedError), st, w)) ∧
    getCredits st w = (Except.error (RunError.sdk notConnectedError), st, w)

/-- The connected guard: a falsy access token makes every operation throw the
not-connected error before any fetch. -/
theorem allOpsNotConnected_of_disconnected (st : ClientState)
    (h : isConnected st = false) : allOpsNotConnected st := by
  intro w
  refine ⟨?_, ?_, ?_, ?_, ?_, ?_, ?_, ?_⟩ <;> intros <;>
    simp [getTemplates, getTemplate, getDocuments, getDocument, createDocument,
          downloadDocument, deleteDocument, getCredits, mapOutcome, request, h,
          Except.map]

/-- C4: with an absent or empty stored access token, every authenticated
operation fails with an error whose message contains "not connected" and
whose status code is absent, and no transport call is made (the returned
world is the input world). -/
theorem C4_not_connected_guard (st : ClientState) (h : isConnected st = false) :
    (strContainsSub notConnectedError.message "not connected" = true ∧
      notConnectedError.statusCode = Option.none) ∧
    allOpsNotConnected st :=
  ⟨⟨rfl, rfl⟩, allOpsNotConnected_of_disconnected st h⟩

/-- C4, witness: two of the operations on a never-connected client. -/
theorem C4_witness :
    getTemplates disconnectedClient (freshWorld [])
      = (Except.error (RunError.sdk notConnectedError), disconnectedClient, freshWorld []) ∧
    downloadDocument disconnectedClient (freshWorld []) "doc1"
      = (Except.error (RunError.sdk notConnectedError), disconnectedClient, freshWorld []) :=
  ⟨((C4_not_connected_guard disconnectedClient rfl).2 (freshWorld [])).1,
   ((C4_not_connected_guard disconnectedClient rfl).2 (freshWorld [])).2.2.2.2.2.1 "doc1"⟩

/-- C1, counterexample: a caller-supplied headers map with an `Authorization`
key changes the Authorization header actually sent — the spread
`{ Authorization: ..., ...options.headers }` puts caller headers last, so
the caller's value wins over the pipeline's bearer token. -/
theorem C1_counterexample :
    (request testClient (freshWorld [okJsonResponse Json.null]) "GET" "api/templates"
        overrideAuthOpts true).2.2.calls.map
      (fun req => lookupHeader req.headers "Authorization") = [Option.some "Evil"] ∧
    ¬ Option.some "Evil" = Option.some (bearerString testClient.accessToken) :=
  ⟨rfl, by decide⟩

/-- C1 (amended): the Authorization header sent to the transport is the
caller's Authorization value when the caller-supplied headers contain an
`Authorization` key (the merge order lets the caller override the bearer),
and `Bearer <stored accessToken>` otherwise. -/
theorem C1_authorization_header_override (st : ClientState) (r : HttpResponse)
    (rest : List HttpResponse) (method path : String) (opts : ReqOptions) (retry : Bool)
    (hconn : isConnected st = true) :
    ((request st (freshWorld (r :: rest)) method path opts retry).2.2.calls.head?
      = Option.some (buildRequest st (st.baseURL ++ stripLeadingSlash path) method opts)) ∧
    (lookupHeader (buildRequest st (st.baseURL ++ stripLeadingSlash path) method opts).headers
        "Authorization"
      = Option.some ((lookupHeader opts.headers "Authorization").getD
          (bearerString st.accessToken))) := by
  constructor
  · rcases rest with _ | ⟨rTok, rest'⟩
    · by_cases hb : (r.status == 401 && retry) = true <;>
        simp [request, hconn, fetchW, connect, freshWorld, hb]
    · by_cases hb : (r.status == 401 && retry) = true
      · by_cases hTok : rTok.ok <;> rcases rest' with _ | ⟨r₂, rest''⟩ <;>
          simp [request, hconn, fetchW, connect, freshWorld, hb, hTok]
      · simp [request, hconn, fetchW, connect, freshWorld, hb]
  · cases hfind : opts.headers.find? (fun p => p.fst == "Authorization") <;>
      simp [buildRequest, spreadMerge, lookupHeader, hfind]

/-- C1, witness: the override at a concrete connected client whose caller
headers carry `Authorization: Evil`. -/
theorem C1_witness :
    lookupHeader (buildRequest testClient
        (testClient.baseURL ++ stripLeadingSlash "api/templates") "GET"
        overrideAuthOpts).headers "Authorization"
      = Option.some ((lookupHeader overrideAuthOpts.headers "Authorization").getD
          (bearerString testClient.accessToken)) :=
  (C1_authorization_header_override testClient (okJsonResponse Json.null) []
    "GET" "api/templates" overrideAuthOpts true rfl).2

/-- C8: the `createDocument` request body has an `expiration_date` key
exactly when a `Date` value was supplied, and its value is that date's
ISO-8601 serialization (`toISOString()`). -/
theorem C8_expiration_date_iff_supplied (i : CreateDocumentInput) :
    (jsonKeys (createDocBody i)).contains "expiration_date" = i.expirationDate.isSome ∧
    jsonLookup (createDocBody i) "expiration_date"
      = i.expirationDate.map (fun d => Json.str d.iso) := by
  obtain ⟨tid, dn, recips, udm, exp⟩ := i
  rcases exp with _ | d <;> rcases udm with _ | m <;>
    simp [createDocBody, jsonKeys, jsonLookup]

/-- A non-success token-exchange response, as the test suite mocks one. -/
def badResponse : HttpResponse :=
  { ok := false, status := 400, textBody := Option.some "Bad request",
    jsonBody := Json.null, body := 0 }

/-- C3: a 401 to a retryable call triggers exactly one token-exchange call
and exactly one redispatch with the same method, URL and body; a second 401
(on a well-formed response, `ok = false`) terminates the request with an
SdkError carrying status 401, consuming nothing further from the transport.
Additionally, whatever the transport answers, a single `#request` dispatches
at most three calls in total (initial dispatch, token exchange, redispatch),
so at most one reauthentication attempt occurs. -/
theorem C3_single_reauth_then_terminal (st : ClientState) (cs : List HttpRequest)
    (method path : String) (opts : ReqOptions)
    (r₁ rTok r₂ : HttpResponse) (rest : List HttpResponse)
    (hconn : isConnected st = true)
    (h401 : r₁.status = 401) (hTok : rTok.ok = true)
    (h401b : r₂.status = 401) (hnotOk : r₂.ok = false) :
    request st { responses := r₁ :: rTok :: r₂ :: rest, calls := cs } method path opts true
      = (Except.error (RunError.sdk { message := r₂.textBody.getD "Unknown error",
                                      statusCode := Option.some 401 }),
         { st with accessToken := extractToken rTok.jsonBody },
         { responses := rest,
           calls := cs
             ++ [buildRequest st (st.baseURL ++ stripLeadingSlash path) method opts,
                 tokenRequest st,
                 buildRequest { st with accessToken := extractToken rTok.jsonBody }
                   (st.baseURL ++ stripLeadingSlash path) method opts] }) ∧
    (buildRequest { st with accessToken := extractToken rTok.jsonBody }
        (st.baseURL ++ stripLeadingSlash path) method opts).method
      = (buildRequest st (st.baseURL ++ stripLeadingSlash path) method opts).method ∧
    (buildRequest { st with accessToken := extractToken rTok.jsonBody }
        (st.baseURL ++ stripLeadingSlash path) method opts).url
      = (buildRequest st (st.baseURL ++ stripLeadingSlash path) method opts).url ∧
    (buildRequest { st with accessToken := extractToken rTok.jsonBody }
        (st.baseURL ++ stripLeadingSlash path) method opts).body
      = (buildRequest st (st.baseURL ++ stripLeadingSlash path) method opts).body ∧
    (∀ w : World, (request st w method path opts true).2.2.calls.length
      ≤ w.calls.length + 3) := by
  refine ⟨?_, rfl, rfl, rfl, ?_⟩
  · simp [request, hconn, fetchW, connect, handleResponse, h401, hTok, h401b, hnotOk]
  · intro w
    obtain ⟨resps, cs'⟩ := w
    rcases resps with _ | ⟨r, rest₁⟩
    · simp [request, hconn, fetchW]
    · by_cases hb : (r.status == 401 && true) = true
      · rcases rest₁ with _ | ⟨rT, rest₂⟩
        · simp [request, hconn, fetchW, connect, hb]
        · by_cases hT : rT.ok
          · rcases rest₂ with _ | ⟨r₃, rest₃⟩ <;>
              simp [request, hconn, fetchW, connect, hb, hT]
          · simp [request, hconn, fetchW, connect, hb, hT]
      · simp [request, hconn, fetchW, hb]

/-- C3, witness: the exact double-401 scenario of the claim, at the test
fixture client. -/
theorem C3_witness :
    (request testClient { responses := [resp401, okJsonResponse (tokenJson "t2"), resp401], calls := [] } "GET" "api/templates" {} true).1
      = Except.error (RunError.sdk { message := "Unauthorized",
                                     statusCode := Option.some 401 }) := by
  have h := (C3_single_reauth_then_terminal testClient [] "GET" "api/templates" {}
    resp401 (okJsonResponse (tokenJson "t2")) resp401 [] rfl rfl rfl rfl rfl).1
  rw [h]
  rfl

/-- C6: when the token-exchange call receives a non-success response,
`connect()` fails with the response body text (or the generic fallback when
the body is unreadable) and the HTTP status, and the whole client state —
the stored access token included — is returned unchanged. -/
theorem C6_connect_failure_preserves_token (st : ClientState) (cs : List HttpRequest)
    (r : HttpResponse) (rest : List HttpResponse) (hfail : r.ok = false) :
    connect st { responses := r :: rest, calls := cs }
      = (Except.error (RunError.sdk { message := r.textBody.getD "Unknown error",
                                      statusCode := Option.some r.status }),
         st,
         { responses := rest, calls := cs ++ [tokenRequest st] }) ∧
    (∀ m, r.textBody = Option.some m → r.textBody.getD "Unknown error" = m) ∧
    (r.textBody = Option.none → r.textBody.getD "Unknown error" = "Unknown error") := by
  refine ⟨?_, fun m hm => by rw [hm]; rfl, fun hm => by rw [hm]; rfl⟩
  simp [connect, fetchW, hfail]

/-- C6, witness: the `connect` failure at the mocked 400 response. -/
theorem C6_witness :
    connect testClient { responses := [badResponse], calls := [] }
      = (Except.error (RunError.sdk { message := "Bad request",
                                      statusCode := Option.some 400 }),
         testClient,
         { responses := [], calls := [tokenRequest testClient] }) :=
  (C6_connect_failure_preserves_token testClient [] badResponse [] rfl).1

/-- C7: `downloadDocument` passes `retry = false`, so a 401 terminates the
call with an SdkError after exactly one dispatch — no token exchange, no
redispatch — and a success response yields a byte stream wrapping the raw
response body (`Readable.fromWeb(response.body)`), not decoded JSON. -/
theorem C7_downloadDocument_no_retry (st : ClientState) (cs : List HttpRequest)
    (documentId : String) (r : HttpResponse) (rest : List HttpResponse)
    (hconn : isConnected st = true) :
    (r.status = 401 → r.ok = false →
      downloadDocument st { responses := r :: rest, calls := cs } documentId
        = (Except.error (RunError.sdk { message := r.textBody.getD "Unknown error",
                                        statusCode := Option.some 401 }),
           st,
           { responses := rest,
             calls := cs ++ [buildRequest st
               (st.baseURL ++ stripLeadingSlash
                 ("api/document/" ++ encodeURIComponent documentId ++ "/download"))
               "GET" {}] })) ∧
    (r.ok = true →
      (downloadDocument st { responses := r :: rest, calls := cs } documentId).1
        = Except.ok (Readable.fromWeb r.body)) := by
  constructor
  · intro h401 hok
    simp [downloadDocument, mapOutcome, request, hconn, fetchW, handleResponse,
          hok, h401, Except.map]
  · intro hok
    simp [downloadDocument, mapOutcome, request, hconn, fetchW, handleResponse,
          hok, Except.map]

/-- C7, witness: both branches at the test fixture client. -/
theorem C7_witness :
    (downloadDocument testClient { responses := [resp401], calls := [] } "doc1").1
      = Except.error (RunError.sdk { message := "Unauthorized",
                                     statusCode := Option.some 401 }) ∧
    (downloadDocument testClient { responses := [streamResponse], calls := [] } "doc1").1
      = Except.ok (Readable.fromWeb 7) := by
  constructor
  · have h := (C7_downloadDocument_no_retry testClient [] "doc1" resp401 [] rfl).1 rfl rfl
    rw [h]
    rfl
  · exact (C7_downloadDocument_no_retry testClient [] "doc1" streamResponse [] rfl).2 rfl

/-- C9: in the 401 retry path, the redispatch reads the access token after
reauthentication: with no caller Authorization override, the first dispatch
carries `Bearer <stale token>` and the redispatch carries `Bearer <new
token>` as stored by the successful token exchange. -/
theorem C9_redispatch_uses_fresh_token (st : ClientState) (cs : List HttpRequest)
    (method path : String) (opts : ReqOptions)
    (r₁ rTok : HttpResponse) (rest : List HttpResponse) (t₀ tNew : String)
    (hconn : st.accessToken = Option.some t₀) (ht₀ : t₀ ≠ "")
    (h401 : r₁.status = 401) (hTok : rTok.ok = true)
    (hNew : extractToken rTok.jsonBody = Option.some tNew)
    (hNoOverride : lookupHeader opts.headers "Authorization" = Option.none) :
    (request st { responses := r₁ :: rTok :: rest, calls := cs }
        method path opts true).2.2.calls
      = cs ++ [buildRequest st (st.baseURL ++ stripLeadingSlash path) method opts,
               tokenRequest st,
               buildRequest { st with accessToken := Option.some tNew }
                 (st.baseURL ++ stripLeadingSlash path) method opts] ∧
    lookupHeader (buildRequest st (st.baseURL ++ stripLeadingSlash path)
        method opts).headers "Authorization"
      = Option.some ("Bearer " ++ t₀) ∧
    lookupHeader (buildRequest { st with accessToken := Option.some tNew }
        (st.baseURL ++ stripLeadingSlash path) method opts).headers "Authorization"
      = Option.some ("Bearer " ++ tNew) := by
  have hconn' : isConnected st = true := by
    simp [isConnected, truthyStr, hconn, ht₀]
  have hfind : opts.headers.find? (fun p => p.fst == "Authorization") = Option.none := by
    rcases hfin2 : opts.headers.find? (fun p => p.fst == "Authorization") with _ | p
    · exact hfin2
    · rw [lookupHeader, hfin2] at hNoOverride
      simp at hNoOverride
  refine ⟨?_, ?_, ?_⟩
  · rcases rest with _ | ⟨r₂, rest'⟩ <;>
      simp [request, hconn', fetchW, connect, h401, hTok, hNew]
  · simp [buildRequest, spreadMerge, lookupHeader, hfind, bearerString, hconn]
  · simp [buildRequest, spreadMerge, lookupHeader, hfind, bearerString]

/-- C9, witness: at the test fixture, the redispatch after a 401 plus a
successful reauthentication carries the freshly stored token `t2`. -/
theorem C9_witness :
    lookupHeader (buildRequest { testClient with accessToken := Option.some "t2" }
        (testClient.baseURL ++ stripLeadingSlash "api/templates") "GET"
        ({} : ReqOptions)).headers "Authorization"
      = Option.some ("Bearer " ++ "t2") :=
  (C9_redispatch_uses_fresh_token testClient [] "GET" "api/templates" {}
    resp401 (okJsonResponse (tokenJson "t2")) [] "tok" "t2"
    rfl (by decide) rfl rfl rfl rfl).2.2

/-- C10: a success token-exchange response whose JSON lacks `access_token`
(or maps it to the empty string) lets `connect()` complete without error,
leaves the stored token falsy so `isConnected` is false, and every
subsequent authenticated operation fails with the not-connected error. -/
theorem C10_missing_token_silent_disconnect (st : ClientState) (cs : List HttpRequest)
    (r : HttpResponse) (rest : List HttpResponse)
    (hok : r.ok = true)
    (hTok : extractToken r.jsonBody = Option.none
          ∨ extractToken r.jsonBody = Option.some "") :
    (connect st { responses := r :: rest, calls := cs }).1 = Except.ok () ∧
    isConnected (connect st { responses := r :: rest, calls := cs }).2.1 = false ∧
    allOpsNotConnected (connect st { responses := r :: rest, calls := cs }).2.1 := by
  have hc : connect st { responses := r :: rest, calls := cs }
      = (Except.ok (), { st with accessToken := extractToken r.jsonBody },
         { responses := rest, calls := cs ++ [tokenRequest st] }) := by
    simp [connect, fetchW, hok]
  have hdisc : isConnected (connect st { responses := r :: rest, calls := cs }).2.1
      = false := by
    rw [hc]
    rcases hTok with h | h <;> simp [isConnected, truthyStr, h]
  exact ⟨by rw [hc], hdisc, allOpsNotConnected_of_disconnected _ hdisc⟩

/-- C10, witness: a success response with an empty JSON object body. -/
theorem C10_witness :
    (connect testClient { responses := [okJsonResponse (Json.obj [])], calls := [] }).1
      = Except.ok () ∧
    isConnected (connect testClient { responses := [okJsonResponse (Json.obj [])], calls := [] }).2.1 = false :=
  ⟨(C10_missing_token_silent_disconnect testClient [] (okJsonResponse (Json.obj [])) []
      rfl (Or.inl rfl)).1,
   (C10_missing_token_silent_disconnect testClient [] (okJsonResponse (Json.obj [])) []
      rfl (Or.inl rfl)).2.1⟩

end ESignBase
